import Mathlib

/-!
Verification of the `xdg-perm` command-line client (`src/main.rs`), a
D-Bus client for the `org.freedesktop.impl.portal.PermissionStore`
service.  The embedding below transliterates the client's data model,
dispatch logic and response renderers; the remote service, the bus
transport and the argument parser are external collaborators and are
modelled by their observable interfaces (a record of fallible remote
methods, `Except`-valued connection/version results, and an
`Option`-valued parse result).
-/

namespace XdgPerm

/-! ## Command-line argument structures (from `src/main.rs`, lines 34-90) -/

structure LookupArgs where
  table : String
  id : String
deriving DecidableEq, Repr

structure ListArgs where
  table : String
deriving DecidableEq, Repr

structure GetArgs where
  table : String
  id : String
  app : String
deriving DecidableEq, Repr

structure DeleteArgs where
  table : String
  id : String
  app : Option String
deriving DecidableEq, Repr

structure SetArgs where
  create : Bool
  table : String
  id : String
  app : String
  permissions : List String
deriving DecidableEq, Repr

/-- The five subcommands of the CLI (`enum Subcommands`). -/
inductive Subcommands where
  | delete (args : DeleteArgs)
  | get (args : GetArgs)
  | list (args : ListArgs)
  | lookup (args : LookupArgs)
  | set (args : SetArgs)
deriving DecidableEq, Repr

/-- The `create` flag of `set` carries `default_value_t = false`: when the
flag is absent on the command line, clap supplies `false`. -/
def setArgsOfCli (createFlag : Option Bool) (table id app : String)
    (permissions : List String) : SetArgs :=
  { create := createFlag.getD false, table := table, id := id, app := app,
    permissions := permissions }

/-! ## Remote data model -/

/-- `zbus::zvariant::OwnedValue`: an opaque variant value.  The client
never inspects it, only prints its `Debug` form, so it is modelled by
that rendering alone. -/
structure OwnedValue where
  debugRepr : String
deriving DecidableEq, Repr

/-- `type LookupResponse = (HashMap<String, Vec<String>>, OwnedValue)`.
The hash map is modelled by its iteration sequence: the list of
(application ID, permission list) pairs in the order `iter()` yields
them for this particular map value. -/
def LookupResponse := List (String × List String) × OwnedValue
deriving DecidableEq

/-! ## The remote interface

One record field per method of the `PermissionStore` proxy trait
(lines 102-120).  Each field gives the reply the remote service returns
for given arguments; `Except.error` is a failed `zbus::Result` carrying
the error's display text. -/

structure RemoteBehavior where
  delete : String → String → Except String Unit
  delete_permission : String → String → String → Except String Unit
  get_permission : String → String → String → Except String (List String)
  list : String → Except String (List String)
  lookup : String → String → Except String LookupResponse
  set_permission : String → Bool → String → String → List String → Except String Unit
  set_value : Bool → String → OwnedValue → Except String Unit

/-- One remote method invocation, recording which proxy method was
called and with which arguments. -/
inductive RemoteCall where
  | delete (table id : String)
  | delete_permission (table id app : String)
  | get_permission (table id app : String)
  | list (table : String)
  | lookup (table id : String)
  | set_permission (table : String) (create : Bool) (id app : String)
      (permissions : List String)
  | set_value (create : Bool) (id : String) (data : OwnedValue)
deriving DecidableEq, Repr

/-! ## Tables and rendering

`comfy_table::Table` is consumed as "render rows under named columns";
it is modelled by the header and the row list handed to it, in order. -/

structure Table where
  header : List String
  rows : List (List String)
deriving DecidableEq, Repr

def Table.new : Table := ⟨[], []⟩

def Table.set_header (t : Table) (h : List String) : Table :=
  { t with header := h }

def Table.add_row (t : Table) (r : List String) : Table :=
  { t with rows := t.rows ++ [r] }

/-- One item written to standard output: a rendered table
(`println!("\x7btable\x7d")`) or a plain `println!` line. -/
inductive OutItem where
  | table (t : Table)
  | line (s : String)
deriving DecidableEq, Repr

/-- `print_lookup_response` (lines 136-146): two-column table
`AppID`/`Permissions`, one `add_row` per map entry with the permission
list joined by `","`, then a `println!` of the associated data's debug
form. -/
def print_lookup_response (response : LookupResponse) : List OutItem :=
  let t := Table.set_header Table.new ["AppID", "Permissions"]
  let t := response.1.foldl
    (fun acc p => Table.add_row acc [p.1, String.intercalate "," p.2]) t
  [OutItem.table t, OutItem.line ("associated data:\n" ++ response.2.debugRepr)]

/-- `print_list_response` (lines 148-157): single-column `Resource ID`
table, one row per ID in iteration order. -/
def print_list_response (response : List String) : List OutItem :=
  let t := Table.set_header Table.new ["Resource ID"]
  let t := response.foldl (fun acc id => Table.add_row acc [id]) t
  [OutItem.table t]

/-- `print_get_permission_response` (lines 159-168): single-column
`Permission` table, one row per permission string in iteration order. -/
def print_get_permission_response (response : List String) : List OutItem :=
  let t := Table.set_header Table.new ["Permission"]
  let t := response.foldl (fun acc permission => Table.add_row acc [permission]) t
  [OutItem.table t]

/-! ## The `main` control flow

`main` (lines 170-235) is modelled as a pure function from the
environment's observable behaviour to the trace of events the process
performs and its exit status.  `main` returns `()` on every path, so
the process status is `0` except when `Cli::parse()` itself aborts
(clap prints a usage error and exits with status `2`). -/

/-- `PERMISSION_STORE_SPEC_VER` (line 124). -/
def PERMISSION_STORE_SPEC_VER : Nat := 2

/-- The `eprintln!` text at line 197, naming both versions. -/
def versionMismatchMsg (server expected : Nat) : String :=
  "Server version " ++ toString server ++
    " does not match expected version " ++ toString expected

/-- Stand-in for the usage/error text clap writes when `Cli::parse()`
rejects the command line. -/
def usageErrorMsg : String := "error: invalid command-line arguments"

/-- Everything one process invocation can observably do, in order. -/
inductive Event where
  | connected
  | proxyCreated
  | versionRead (v : Nat)
  | argsParsed (cmd : Subcommands)
  | remoteCall (c : RemoteCall)
  | stdout (item : OutItem)
  | stderr (msg : String)
deriving DecidableEq, Repr

/-- The environment one invocation runs against: the outcome of
`Connection::session()`, of `PermissionStoreProxy::new`, of the
`version` property read, of `Cli::parse()` (`none` = the arguments do
not parse), and the remote service's behaviour. -/
structure Env where
  connectResult : Except String Unit
  proxyResult : Except String Unit
  versionResult : Except String Nat
  parseResult : Option Subcommands
  remote : RemoteBehavior

/-- The helper `delete_permission` (lines 126-134): picks the
per-application call when `args.app` is present, the whole-resource
call otherwise.  Instrumented to also return which proxy method it
invoked. -/
def delete_permission (remote : RemoteBehavior) (args : DeleteArgs) :
    RemoteCall × Except String Unit :=
  match args.app with
  | some app => (RemoteCall.delete_permission args.table args.id app,
      remote.delete_permission args.table args.id app)
  | none => (RemoteCall.delete args.table args.id,
      remote.delete args.table args.id)

/-- The `match &cli.command` dispatch (lines 202-234): exactly one
proxy call per command, then either the success output or the
`eprintln!` error arm. -/
def dispatch (remote : RemoteBehavior) (cmd : Subcommands) : List Event :=
  match cmd with
  | Subcommands.delete args =>
      let r := delete_permission remote args
      match r.2 with
      | Except.ok _ => [Event.remoteCall r.1,
          Event.stdout (OutItem.line "Permissions deleted successfully")]
      | Except.error e => [Event.remoteCall r.1,
          Event.stderr ("failed to delete permissions: " ++ e)]
  | Subcommands.get args =>
      match remote.get_permission args.table args.id args.app with
      | Except.ok permissions =>
          Event.remoteCall (RemoteCall.get_permission args.table args.id args.app) ::
            (print_get_permission_response permissions).map Event.stdout
      | Except.error e =>
          [Event.remoteCall (RemoteCall.get_permission args.table args.id args.app),
           Event.stderr ("failed to get permissions: " ++ e)]
  | Subcommands.list args =>
      match remote.list args.table with
      | Except.ok ids =>
          Event.remoteCall (RemoteCall.list args.table) ::
            (print_list_response ids).map Event.stdout
      | Except.error e =>
          [Event.remoteCall (RemoteCall.list args.table),
           Event.stderr ("failed to list permissions: " ++ e)]
  | Subcommands.lookup args =>
      match remote.lookup args.table args.id with
      | Except.ok result =>
          Event.remoteCall (RemoteCall.lookup args.table args.id) ::
            (print_lookup_response result).map Event.stdout
      | Except.error e =>
          [Event.remoteCall (RemoteCall.lookup args.table args.id),
           Event.stderr ("failed to lookup permissions: " ++ e)]
  | Subcommands.set args =>
      match remote.set_permission args.table args.create args.id args.app
          args.permissions with
      | Except.ok _ =>
          [Event.remoteCall (RemoteCall.set_permission args.table args.create
              args.id args.app args.permissions),
           Event.stdout (OutItem.line "Permissions set successfully")]
      | Except.error e =>
          [Event.remoteCall (RemoteCall.set_permission args.table args.create
              args.id args.app args.permissions),
           Event.stderr ("failed to set permissions: " ++ e)]

/-- Lines 172-199 of `main`: connect, create the proxy, read and check
the version.  Returns the events performed and whether control reaches
`Cli::parse()` (each `Err`/mismatch arm is an early `return`). -/
def preDispatch (env : Env) : List Event × Bool :=
  match env.connectResult with
  | Except.error e => ([Event.stderr ("Failed to connect: " ++ e)], false)
  | Except.ok _ =>
    match env.proxyResult with
    | Except.error e =>
        ([Event.connected, Event.stderr ("Failed to create proxy: " ++ e)], false)
    | Except.ok _ =>
      match env.versionResult with
      | Except.error e =>
          ([Event.connected, Event.proxyCreated,
            Event.stderr ("Failed to get server version: " ++ e)], false)
      | Except.ok server_version =>
          if server_version ≠ PERMISSION_STORE_SPEC_VER then
            ([Event.connected, Event.proxyCreated, Event.versionRead server_version,
              Event.stderr (versionMismatchMsg server_version PERMISSION_STORE_SPEC_VER)],
             false)
          else
            ([Event.connected, Event.proxyCreated, Event.versionRead server_version],
             true)

/-- The whole of `main`: the gate (lines 172-199), then `Cli::parse()`
(line 201), then the dispatch `match` (lines 202-234).  Result: the
event trace and the process exit status. -/
def runMain (env : Env) : List Event × Nat :=
  let pre := preDispatch env
  if pre.2 then
    match env.parseResult with
    | none => (pre.1 ++ [Event.stderr usageErrorMsg], 2)
    | some cmd => (pre.1 ++ Event.argsParsed cmd :: dispatch env.remote cmd, 0)
  else
    (pre.1, 0)

/-! ## Trace projections -/

def callsOf (t : List Event) : List RemoteCall :=
  t.filterMap fun e =>
    match e with
    | Event.remoteCall c => some c
    | _ => none

def stdoutOf (t : List Event) : List OutItem :=
  t.filterMap fun e =>
    match e with
    | Event.stdout item => some item
    | _ => none

def stderrOf (t : List Event) : List String :=
  t.filterMap fun e =>
    match e with
    | Event.stderr msg => some msg
    | _ => none

/-- The first argument of the `eprintln!` in each error arm of the
dispatch `match` (lines 205, 210, 215, 219, 232). -/
def dispatchErrMsg (cmd : Subcommands) (e : String) : String :=
  match cmd with
  | Subcommands.delete _ => "failed to delete permissions: " ++ e
  | Subcommands.get _ => "failed to get permissions: " ++ e
  | Subcommands.list _ => "failed to list permissions: " ++ e
  | Subcommands.lookup _ => "failed to lookup permissions: " ++ e
  | Subcommands.set _ => "failed to set permissions: " ++ e

/-- The success/failure outcome of the single remote call a command
dispatches, with the success payload discarded. -/
def remoteOutcome (remote : RemoteBehavior) (cmd : Subcommands) :
    Except String Unit :=
  match cmd with
  | Subcommands.delete args => (delete_permission remote args).2
  | Subcommands.get args =>
      match remote.get_permission args.table args.id args.app with
      | Except.ok _ => Except.ok ()
      | Except.error e => Except.error e
  | Subcommands.list args =>
      match remote.list args.table with
      | Except.ok _ => Except.ok ()
      | Except.error e => Except.error e
  | Subcommands.lookup args =>
      match remote.lookup args.table args.id with
      | Except.ok _ => Except.ok ()
      | Except.error e => Except.error e
  | Subcommands.set args =>
      remote.set_permission args.table args.create args.id args.app
        args.permissions

/-! ## Concrete environments used to instantiate the theorems -/

/-- A remote service that rejects every call. -/
def remoteAllErr : RemoteBehavior where
  delete := fun _ _ => Except.error "not found"
  delete_permission := fun _ _ _ => Except.error "not found"
  get_permission := fun _ _ _ => Except.error "not found"
  list := fun _ => Except.error "not found"
  lookup := fun _ _ => Except.error "not found"
  set_permission := fun _ _ _ _ _ => Except.error "not found"
  set_value := fun _ _ _ => Except.error "not found"

/-- A remote service that accepts every call with an empty payload. -/
def remoteEmptyOk : RemoteBehavior where
  delete := fun _ _ => Except.ok ()
  delete_permission := fun _ _ _ => Except.ok ()
  get_permission := fun _ _ _ => Except.ok []
  list := fun _ => Except.ok []
  lookup := fun _ _ => Except.ok ([], ⟨"Nothing"⟩)
  set_permission := fun _ _ _ _ _ => Except.ok ()
  set_value := fun _ _ _ => Except.ok ()

/-- Gate-passing invocation of `delete` with the `app` argument. -/
def envDeleteApp : Env where
  connectResult := Except.ok ()
  proxyResult := Except.ok ()
  versionResult := Except.ok 2
  parseResult := some (Subcommands.delete ⟨"t", "r", some "a"⟩)
  remote := remoteEmptyOk

/-- Invocation against a remote advertising version 3. -/
def envVersionThree : Env where
  connectResult := Except.ok ()
  proxyResult := Except.ok ()
  versionResult := Except.ok 3
  parseResult := none
  remote := remoteEmptyOk

/-- Gate-passing `list` invocation whose remote rejects every call. -/
def envListErr : Env where
  connectResult := Except.ok ()
  proxyResult := Except.ok ()
  versionResult := Except.ok 2
  parseResult := some (Subcommands.list ⟨"t"⟩)
  remote := remoteAllErr

/-- Gate-passing `list` invocation against an empty table. -/
def envListEmpty : Env where
  connectResult := Except.ok ()
  proxyResult := Except.ok ()
  versionResult := Except.ok 2
  parseResult := some (Subcommands.list ⟨"t"⟩)
  remote := remoteEmptyOk

/-- Gate-passing `set` invocation with the create flag. -/
def envSet : Env where
  connectResult := Except.ok ()
  proxyResult := Except.ok ()
  versionResult := Except.ok 2
  parseResult := some (Subcommands.set ⟨true, "t", "r", "a", ["read"]⟩)
  remote := remoteEmptyOk

/-- Gate-passing invocation whose command line does not parse. -/
def envNoParse : Env where
  connectResult := Except.ok ()
  proxyResult := Except.ok ()
  versionResult := Except.ok 2
  parseResult := none
  remote := remoteEmptyOk

/-! ## Helper lemmas -/

theorem foldl_add_row {α : Type} (f : α → List String) (l : List α)
    (t : Table) :
    l.foldl (fun acc a => Table.add_row acc (f a)) t =
      ⟨t.header, t.rows ++ l.map f⟩ := by
  induction l generalizing t with
  | nil => simp
  | cons a l ih =>
      rw [List.foldl_cons, ih]
      simp [Table.add_row]

theorem print_list_response_eq (response : List String) :
    print_list_response response =
      [OutItem.table ⟨["Resource ID"], response.map fun id => [id]⟩] := by
  unfold print_list_response
  dsimp only
  rw [foldl_add_row (fun id : String => [id])]
  rfl

theorem print_get_permission_response_eq (response : List String) :
    print_get_permission_response response =
      [OutItem.table ⟨["Permission"], response.map fun p => [p]⟩] := by
  unfold print_get_permission_response
  dsimp only
  rw [foldl_add_row (fun p : String => [p])]
  rfl

theorem print_lookup_response_eq (response : LookupResponse) :
    print_lookup_response response =
      [OutItem.table ⟨["AppID", "Permissions"],
         response.1.map fun p => [p.1, String.intercalate "," p.2]⟩,
       OutItem.line ("associated data:\n" ++ response.2.debugRepr)] := by
  unfold print_lookup_response
  dsimp only
  rw [foldl_add_row (fun p : String × List String =>
    [p.1, String.intercalate "," p.2])]
  rfl

theorem preDispatch_gate_ok (env : Env)
    (hc : env.connectResult = Except.ok ())
    (hp : env.proxyResult = Except.ok ())
    (hv : env.versionResult = Except.ok PERMISSION_STORE_SPEC_VER) :
    preDispatch env =
      ([Event.connected, Event.proxyCreated,
        Event.versionRead PERMISSION_STORE_SPEC_VER], true) := by
  unfold preDispatch
  rw [hc, hp, hv]
  simp

theorem runMain_gate_ok (env : Env) (cmd : Subcommands)
    (hc : env.connectResult = Except.ok ())
    (hp : env.proxyResult = Except.ok ())
    (hv : env.versionResult = Except.ok PERMISSION_STORE_SPEC_VER)
    (hcmd : env.parseResult = some cmd) :
    runMain env =
      (Event.connected :: Event.proxyCreated ::
        Event.versionRead PERMISSION_STORE_SPEC_VER ::
        Event.argsParsed cmd :: dispatch env.remote cmd, 0) := by
  unfold runMain
  rw [preDispatch_gate_ok env hc hp hv, hcmd]
  simp

theorem callsOf_events (v : Nat) (cmd : Subcommands) (rest : List Event) :
    callsOf (Event.connected :: Event.proxyCreated :: Event.versionRead v ::
      Event.argsParsed cmd :: rest) = callsOf rest := by
  simp [callsOf]

theorem stdoutOf_events (v : Nat) (cmd : Subcommands) (rest : List Event) :
    stdoutOf (Event.connected :: Event.proxyCreated :: Event.versionRead v ::
      Event.argsParsed cmd :: rest) = stdoutOf rest := by
  simp [stdoutOf]

theorem stderrOf_events (v : Nat) (cmd : Subcommands) (rest : List Event) :
    stderrOf (Event.connected :: Event.proxyCreated :: Event.versionRead v ::
      Event.argsParsed cmd :: rest) = stderrOf rest := by
  simp [stderrOf]

theorem stdoutOf_map_stdout (items : List OutItem) :
    stdoutOf (items.map Event.stdout) = items := by
  induction items with
  | nil => rfl
  | cons a l ih =>
      simp only [stdoutOf, List.map_cons, List.filterMap_cons] at ih ⊢
      simp [ih]

theorem stderrOf_map_stdout (items : List OutItem) :
    stderrOf (items.map Event.stdout) = [] := by
  induction items with
  | nil => rfl
  | cons a l ih =>
      simp only [stderrOf, List.map_cons, List.filterMap_cons] at ih ⊢
      simp [ih]

theorem callsOf_dispatch_delete (remote : RemoteBehavior) (args : DeleteArgs) :
    callsOf (dispatch remote (Subcommands.delete args)) =
      [(delete_permission remote args).1] := by
  unfold dispatch
  cases h : (delete_permission remote args).2 <;> simp [h, callsOf]

theorem callsOf_dispatch_set (remote : RemoteBehavior) (args : SetArgs) :
    callsOf (dispatch remote (Subcommands.set args)) =
      [RemoteCall.set_permission args.table args.create args.id args.app
        args.permissions] := by
  unfold dispatch
  cases h : remote.set_permission args.table args.create args.id args.app
      args.permissions <;> simp [h, callsOf]

theorem dispatch_error (remote : RemoteBehavior) (cmd : Subcommands) (e : String)
    (herr : remoteOutcome remote cmd = Except.error e) :
    ∃ c : RemoteCall,
      dispatch remote cmd =
        [Event.remoteCall c, Event.stderr (dispatchErrMsg cmd e)] := by
  cases cmd with
  | delete args =>
      simp only [remoteOutcome] at herr
      exact ⟨(delete_permission remote args).1,
        by simp [dispatch, herr, dispatchErrMsg]⟩
  | get args =>
      simp only [remoteOutcome] at herr
      cases h : remote.get_permission args.table args.id args.app with
      | ok v => rw [h] at herr; simp at herr
      | error e2 =>
          rw [h] at herr
          simp at herr
          subst herr
          exact ⟨RemoteCall.get_permission args.table args.id args.app,
            by simp [dispatch, h, dispatchErrMsg]⟩
  | list args =>
      simp only [remoteOutcome] at herr
      cases h : remote.list args.table with
      | ok v => rw [h] at herr; simp at herr
      | error e2 =>
          rw [h] at herr
          simp at herr
          subst herr
          exact ⟨RemoteCall.list args.table, by simp [dispatch, h, dispatchErrMsg]⟩
  | lookup args =>
      simp only [remoteOutcome] at herr
      cases h : remote.lookup args.table args.id with
      | ok v => rw [h] at herr; simp at herr
      | error e2 =>
          rw [h] at herr
          simp at herr
          subst herr
          exact ⟨RemoteCall.lookup args.table args.id,
            by simp [dispatch, h, dispatchErrMsg]⟩
  | set args =>
      simp only [remoteOutcome] at herr
      exact ⟨RemoteCall.set_permission args.table args.create args.id args.app
          args.permissions,
        by simp [dispatch, herr, dispatchErrMsg]⟩

/-! ## Claim theorems -/

/-- C1: for every invocation of the Delete command, if the optional
application argument is given the client invokes exactly the
per-application `delete_permission(table, id, app)` call, and if it is
absent exactly the whole-resource `delete(table, id)` call; in either
case the full list of remote commands invoked is that one call and no
other. -/
theorem C1_delete_dispatch (env : Env) (args : DeleteArgs)
    (hc : env.connectResult = Except.ok ())
    (hp : env.proxyResult = Except.ok ())
    (hv : env.versionResult = Except.ok PERMISSION_STORE_SPEC_VER)
    (hcmd : env.parseResult = some (Subcommands.delete args)) :
    (∀ app, args.app = some app →
        callsOf (runMain env).1 =
          [RemoteCall.delete_permission args.table args.id app]) ∧
    (args.app = none →
        callsOf (runMain env).1 = [RemoteCall.delete args.table args.id]) := by
  rw [runMain_gate_ok env _ hc hp hv hcmd]
  constructor
  · intro app happ
    simp only [callsOf_events, callsOf_dispatch_delete]
    simp [delete_permission, happ]
  · intro happ
    simp only [callsOf_events, callsOf_dispatch_delete]
    simp [delete_permission, happ]

/-- C1 witness: a Delete invocation with the application argument
present invokes exactly `delete_permission("t", "r", "a")`. -/
theorem C1_delete_dispatch_witness :
    callsOf (runMain envDeleteApp).1 =
      [RemoteCall.delete_permission "t" "r" "a"] :=
  (C1_delete_dispatch envDeleteApp ⟨"t", "r", some "a"⟩ rfl rfl rfl rfl).1 "a" rfl

/-- C2: when the version property reads successfully but differs from
the expected constant, the whole event trace is the gate steps followed
by the mismatch message naming both values, and the call list of every
command method is empty. -/
theorem C2_version_mismatch (env : Env) (v : Nat)
    (hc : env.connectResult = Except.ok ())
    (hp : env.proxyResult = Except.ok ())
    (hv : env.versionResult = Except.ok v)
    (hne : v ≠ PERMISSION_STORE_SPEC_VER) :
    (runMain env).1 =
      [Event.connected, Event.proxyCreated, Event.versionRead v,
       Event.stderr (versionMismatchMsg v PERMISSION_STORE_SPEC_VER)] ∧
    callsOf (runMain env).1 = [] := by
  have hpre : preDispatch env =
      ([Event.connected, Event.proxyCreated, Event.versionRead v,
        Event.stderr (versionMismatchMsg v PERMISSION_STORE_SPEC_VER)], false) := by
    unfold preDispatch
    rw [hc, hp, hv]
    simp [hne]
  unfold runMain
  rw [hpre]
  simp [callsOf]

/-- C2 witness: a remote reporting version 3 yields only the mismatch
report and zero remote command calls. -/
theorem C2_version_mismatch_witness :
    (runMain envVersionThree).1 =
      [Event.connected, Event.proxyCreated, Event.versionRead 3,
       Event.stderr (versionMismatchMsg 3 PERMISSION_STORE_SPEC_VER)] ∧
    callsOf (runMain envVersionThree).1 = [] :=
  C2_version_mismatch envVersionThree 3 rfl rfl rfl (by decide)

/-- C3 counterexample: a gate-passing `list` invocation whose remote
call fails produces the error message on the diagnostic stream and no
table output, yet the process outcome is `0`: `main` returns `()` after
`eprintln!`, so the claim's required non-zero outcome is false here. -/
theorem C3_counterexample :
    remoteOutcome envListErr.remote (Subcommands.list ⟨"t"⟩) =
      Except.error "not found" ∧
    stderrOf (runMain envListErr).1 =
      ["failed to list permissions: not found"] ∧
    stdoutOf (runMain envListErr).1 = [] ∧
    (runMain envListErr).2 = 0 := by
  refine ⟨rfl, ?_, ?_, rfl⟩ <;> rfl

/-- C3 (amended): an invocation whose dispatched remote call returns a
service-side error produces no output item on standard output, exactly
the one error message on the diagnostic stream, and the process
terminates normally with outcome `0` (not non-zero: `main` returns `()`
after reporting the error). -/
theorem C3_remote_error_reporting (env : Env) (cmd : Subcommands) (e : String)
    (hc : env.connectResult = Except.ok ())
    (hp : env.proxyResult = Except.ok ())
    (hv : env.versionResult = Except.ok PERMISSION_STORE_SPEC_VER)
    (hcmd : env.parseResult = some cmd)
    (herr : remoteOutcome env.remote cmd = Except.error e) :
    stdoutOf (runMain env).1 = [] ∧
    stderrOf (runMain env).1 = [dispatchErrMsg cmd e] ∧
    (runMain env).2 = 0 := by
  obtain ⟨c, hd⟩ := dispatch_error env.remote cmd e herr
  rw [runMain_gate_ok env cmd hc hp hv hcmd, hd]
  refine ⟨?_, ?_, rfl⟩ <;> simp [stdoutOf, stderrOf]

/-- C3 witness: the failing `list` invocation reports exactly one error
line, renders nothing, and exits with outcome `0`. -/
theorem C3_remote_error_reporting_witness :
    stdoutOf (runMain envListErr).1 = [] ∧
    stderrOf (runMain envListErr).1 =
      [dispatchErrMsg (Subcommands.list ⟨"t"⟩) "not found"] ∧
    (runMain envListErr).2 = 0 :=
  C3_remote_error_reporting envListErr (Subcommands.list ⟨"t"⟩) "not found"
    rfl rfl rfl rfl rfl

/-- C4: rendering a lookup result yields the two-column
`AppID`/`Permissions` table whose data rows are exactly the mapping's
entries in order, each permissions cell the comma-joined permission
list, followed by the line with the associated data's debug form; in
particular there is exactly one data row per application. -/
theorem C4_lookup_rendering (response : LookupResponse) :
    print_lookup_response response =
      [OutItem.table ⟨["AppID", "Permissions"],
         response.1.map fun p => [p.1, String.intercalate "," p.2]⟩,
       OutItem.line ("associated data:\n" ++ response.2.debugRepr)] ∧
    (response.1.map fun p =>
      [p.1, String.intercalate "," p.2]).length = response.1.length :=
  ⟨print_lookup_response_eq response, by simp⟩

/-- C5: the permission renderer and the resource-ID renderer emit one
row per element in exactly the input order, with no sorting and no
deduplication, and the permission list `["read", "write"]` renders its
joined cell as `read,write`. -/
theorem C5_order_preservation :
    (∀ (response : List String), print_get_permission_response response =
        [OutItem.table ⟨["Permission"], response.map fun p => [p]⟩]) ∧
    (∀ (response : List String), print_list_response response =
        [OutItem.table ⟨["Resource ID"], response.map fun id => [id]⟩]) ∧
    print_lookup_response ([("org.app.A", ["read", "write"])], ⟨"X"⟩) =
      [OutItem.table ⟨["AppID", "Permissions"], [["org.app.A", "read,write"]]⟩,
       OutItem.line "associated data:\nX"] := by
  refine ⟨print_get_permission_response_eq, print_list_response_eq, ?_⟩
  rw [print_lookup_response_eq]
  rfl

/-- C6: `list` on an empty table and `get` for an application with no
recorded grant both render a header-only table with zero data rows on
standard output and write nothing to the diagnostic stream. -/
theorem C6_empty_rendering (env : Env) (largs : ListArgs) (gargs : GetArgs)
    (hc : env.connectResult = Except.ok ())
    (hp : env.proxyResult = Except.ok ())
    (hv : env.versionResult = Except.ok PERMISSION_STORE_SPEC_VER) :
    (env.parseResult = some (Subcommands.list largs) →
      env.remote.list largs.table = Except.ok [] →
      stdoutOf (runMain env).1 = [OutItem.table ⟨["Resource ID"], []⟩] ∧
      stderrOf (runMain env).1 = []) ∧
    (env.parseResult = some (Subcommands.get gargs) →
      env.remote.get_permission gargs.table gargs.id gargs.app = Except.ok [] →
      stdoutOf (runMain env).1 = [OutItem.table ⟨["Permission"], []⟩] ∧
      stderrOf (runMain env).1 = []) := by
  constructor
  · intro hcmd hok
    rw [runMain_gate_ok env _ hc hp hv hcmd]
    simp only [stdoutOf_events, stderrOf_events]
    simp [dispatch, hok, print_list_response_eq, stdoutOf, stderrOf]
  · intro hcmd hok
    rw [runMain_gate_ok env _ hc hp hv hcmd]
    simp only [stdoutOf_events, stderrOf_events]
    simp [dispatch, hok, print_get_permission_response_eq, stdoutOf, stderrOf]

/-- C6 witness: `list` on the empty table `"t"` renders the header-only
`Resource ID` table and no diagnostics. -/
theorem C6_empty_rendering_witness :
    stdoutOf (runMain envListEmpty).1 = [OutItem.table ⟨["Resource ID"], []⟩] ∧
    stderrOf (runMain envListEmpty).1 = [] :=
  (C6_empty_rendering envListEmpty ⟨"t"⟩ ⟨"t", "r", "a"⟩ rfl rfl rfl).1 rfl rfl

/-- C7: a Set invocation invokes exactly the remote call
`set_permission(table, create, id, app, permissions)` and no other, for
any permission list including the empty one; and the `create` flag,
when absent from the command line, defaults to `false`. -/
theorem C7_set_dispatch (env : Env) (args : SetArgs)
    (hc : env.connectResult = Except.ok ())
    (hp : env.proxyResult = Except.ok ())
    (hv : env.versionResult = Except.ok PERMISSION_STORE_SPEC_VER)
    (hcmd : env.parseResult = some (Subcommands.set args)) :
    callsOf (runMain env).1 =
      [RemoteCall.set_permission args.table args.create args.id args.app
        args.permissions] ∧
    ∀ (table id app : String) (permissions : List String),
      (setArgsOfCli none table id app permissions).create = false := by
  refine ⟨?_, fun _ _ _ _ => rfl⟩
  rw [runMain_gate_ok env _ hc hp hv hcmd]
  simp only [callsOf_events, callsOf_dispatch_set]

/-- C7 witness: `set -c t r a read` invokes exactly
`set_permission("t", true, "r", "a", ["read"])`. -/
theorem C7_set_dispatch_witness :
    callsOf (runMain envSet).1 =
      [RemoteCall.set_permission "t" true "r" "a" ["read"]] :=
  (C7_set_dispatch envSet ⟨true, "t", "r", "a", ["read"]⟩ rfl rfl rfl rfl).1

/-- C8: rendering the same lookup result, resource-ID list, or
permission list twice in one run produces identical output both times:
in each doubled output stream the first rendering equals the second. -/
theorem C8_render_deterministic (resp : LookupResponse)
    (ids perms : List String) :
    List.take 2 (print_lookup_response resp ++ print_lookup_response resp) =
      List.drop 2 (print_lookup_response resp ++ print_lookup_response resp) ∧
    List.take 1 (print_list_response ids ++ print_list_response ids) =
      List.drop 1 (print_list_response ids ++ print_list_response ids) ∧
    List.take 1 (print_get_permission_response perms ++
        print_get_permission_response perms) =
      List.drop 1 (print_get_permission_response perms ++
        print_get_permission_response perms) := by
  refine ⟨?_, ?_, ?_⟩
  · rw [print_lookup_response_eq]
    rfl
  · rw [print_list_response_eq]
    rfl
  · rw [print_get_permission_response_eq]
    rfl

/-- C9: the single protocol version this client accepts is the literal
constant 2, and the version gate lets the invocation proceed to
dispatch if and only if the remote version equals 2. -/
theorem C9_expected_version :
    PERMISSION_STORE_SPEC_VER = 2 ∧
    ∀ (env : Env) (v : Nat),
      env.connectResult = Except.ok () →
      env.proxyResult = Except.ok () →
      env.versionResult = Except.ok v →
      ((preDispatch env).2 = true ↔ v = 2) := by
  refine ⟨rfl, fun env v hc hp hv => ?_⟩
  unfold preDispatch
  rw [hc, hp, hv]
  by_cases h : v = 2 <;> simp [h, PERMISSION_STORE_SPEC_VER]

/-- C9 witness: against a remote advertising version 3 the gate does
not pass, matching 3 ≠ 2. -/
theorem C9_expected_version_witness :
    (preDispatch envVersionThree).2 = true ↔ (3 : Nat) = 2 :=
  C9_expected_version.2 envVersionThree 3 rfl rfl rfl

/-- C10: the behaviour up to and including the version check is
independent of the parse result and of the remote command behaviour
(arguments are parsed only after the gate), and an invocation whose
arguments fail to parse still connects, creates the proxy and reads the
remote version before the parse failure surfaces. -/
theorem C10_parse_after_gate :
    (∀ (c p : Except String Unit) (vr : Except String Nat)
        (parse1 parse2 : Option Subcommands) (r1 r2 : RemoteBehavior),
        preDispatch ⟨c, p, vr, parse1, r1⟩ = preDispatch ⟨c, p, vr, parse2, r2⟩) ∧
    (∀ (env : Env),
        env.connectResult = Except.ok () →
        env.proxyResult = Except.ok () →
        env.versionResult = Except.ok PERMISSION_STORE_SPEC_VER →
        env.parseResult = none →
        runMain env = ([Event.connected, Event.proxyCreated,
          Event.versionRead PERMISSION_STORE_SPEC_VER,
          Event.stderr usageErrorMsg], 2)) := by
  constructor
  · intro c p vr parse1 parse2 r1 r2
    rfl
  · intro env hc hp hv hparse
    unfold runMain
    rw [preDispatch_gate_ok env hc hp hv, hparse]
    rfl

/-- C10 witness: with an unparsable command line the run still
connects, creates the proxy and reads version 2 before failing. -/
theorem C10_parse_after_gate_witness :
    runMain envNoParse = ([Event.connected, Event.proxyCreated,
      Event.versionRead PERMISSION_STORE_SPEC_VER,
      Event.stderr usageErrorMsg], 2) :=
  C10_parse_after_gate.2 envNoParse rfl rfl rfl rfl

end XdgPerm
